import Mathlib

/-!
Verification development for the OAuth account-linking endpoint
(src/src/pages/[...locale]/drifter/anchor/[platform].ts) and the
rehype figure plugin of the papidb/danielubenjamin repository.

The endpoint is embedded as a pure function from an environment
(database contents, provider strategies, generated randomness) and a
request (query parameters, referer header, decoded escort cookie) to a
result holding the HTTP response, the ordered list of cookie
mutations, the final database contents, and whether the provider
token exchange was attempted.
-/

namespace Anchor

/-- Payload of the `escort` cookie: CSRF `state`, PKCE `code_verifier`
and the `referrer` captured at initiation.  The referrer is optional so
that the `escort.referrer ?? "/"` fallbacks in the handler are modelled
faithfully. -/
structure EscortPayload where
  state : String
  code_verifier : String
  referrer : Option String
deriving Repr, DecidableEq

/-- Identity and profile data returned by a provider token exchange
(the `OAuthAccount` type of `$utils/oauth`).  `expire` is the epoch
milliseconds of `user.expire?.getTime()`. -/
structure OAuthAccount where
  platform : String
  account : String
  refresh : Option String
  access : Option String
  expire : Option Int
  handle : Option String
  name : Option String
  description : Option String
  image : Option String
deriving Repr, DecidableEq

/-- A row of the `Drifter` table. -/
structure DrifterRow where
  ID : String
  platform : String
  account : String
  refresh : Option String
  access : Option String
  expire : Option Int
  handle : Option String
  name : Option String
  description : Option String
  image : Option String
deriving Repr, DecidableEq

/-- Cookie payloads issued by the handler: `escort` payloads and
`passport` payloads carrying the `visa` account id. -/
inductive TokenPayload where
  | escortP (e : EscortPayload)
  | passportP (visa : String)
deriving Repr, DecidableEq

/-- Modelled from the spec: the token store mutates the outgoing
cookie headers.  `Token.issue` becomes a `set` operation (with an
optional time-to-live in seconds) and `Token.revoke` a `delete`
operation; operations are recorded in the order the handler performs
them. -/
inductive CookieOp where
  | set (name : String) (payload : TokenPayload) (ttlSeconds : Option Nat)
  | delete (name : String)
deriving Repr, DecidableEq

/-- The HTTP responses the handler produces: `redirect loc s` for
`redirect(loc, s)` and `content s body` for `new Response(body, s)`. -/
inductive HttpResponse where
  | redirect (location : String) (status : Nat)
  | content (status : Nat) (body : String)
deriving Repr, DecidableEq

/-- The inbound request as the handler observes it: the `platform`
path parameter, the `code`, `state` and `error` query parameters
(`none` when absent from the URL), the `referer` header, and the
result of `Token.check(cookies, "escort")`.  Modelled from the spec:
`Token.check` verifies the cookie signature and returns the decoded
payload, or no value when the cookie is absent, malformed or expired,
so its outcome is embedded as an `Option EscortPayload`. -/
structure OAuthRequest where
  platform : String
  code : Option String
  state : Option String
  error_status : Option String
  referer : Option String
  escort : Option EscortPayload
deriving Repr, DecidableEq

/-- Modelled from the spec: the per-provider strategy layer of
`$utils/oauth`.  `supported` is the closed set of known platform
names; selecting a strategy for any other platform rejects the
request.  `exchange platform code verifier` is
`new OAuth(platform).validate(code, verifier)` (`none` when the
provider call fails) and `authURL platform state verifier` is
`new OAuth(platform).URL(state, verifier)`.  The freshly generated
values of `generateState()`, `generateCodeVerifier()` and
`random(16)` are supplied as `freshState`, `freshVerifier` and
`freshID`; `db` is the current contents of the `Drifter` table. -/
structure Env where
  supported : List String
  exchange : String → String → String → Option OAuthAccount
  authURL : String → String → String → String
  freshState : String
  freshVerifier : String
  freshID : String
  db : List DrifterRow

/-- Result of one request: the response (`none` when an exception
escapes the handler), the ordered cookie mutations, the final
database contents, and whether the provider token exchange was
attempted. -/
structure HResult where
  response : Option HttpResponse
  cookies : List CookieOp
  db : List DrifterRow
  exchanged : Bool
deriving Repr, DecidableEq

/-- JavaScript truthiness of a nullable string: `null` and `""` are
falsy, every other string is truthy. -/
def truthy : Option String → Bool
  | none => false
  | some s => s != ""

/-- Rows conflict when they agree on the `(platform, account)`
identity key (`target: [Drifter.platform, Drifter.account]`). -/
def sameKey (a b : DrifterRow) : Bool :=
  a.platform == b.platform && a.account == b.account

/-- The `onConflictDoUpdate` clause: overwrite exactly `access`,
`expire`, `handle`, `name`, `description` and `image` with the
excluded (freshly inserted) values, keeping `ID`, `platform`,
`account` and `refresh` from the existing row. -/
def mergeRow (old fresh : DrifterRow) : DrifterRow :=
  { old with
    access := fresh.access
    expire := fresh.expire
    handle := fresh.handle
    name := fresh.name
    description := fresh.description
    image := fresh.image }

/-- Modelled from the spec: the atomic insert-or-update-on-conflict of
the store (`db.insert(Drifter).values(...).onConflictDoUpdate(...)
.returning(Drifter.ID)`).  Returns the final table and the `ID` of the
inserted or updated row. -/
def upsert (db : List DrifterRow) (fresh : DrifterRow) : List DrifterRow × String :=
  match db.find? (fun r => sameKey r fresh) with
  | some r => (db.map (fun x => if sameKey x fresh then mergeRow x fresh else x), r.ID)
  | none => (db ++ [fresh], fresh.ID)

/-- The row the handler passes to `db.insert(Drifter).values({...})`,
with `ID := random(16)` and every other field from the exchanged
account. -/
def mkRow (id : String) (user : OAuthAccount) : DrifterRow :=
  { ID := id
    platform := user.platform
    account := user.account
    refresh := user.refresh
    access := user.access
    expire := user.expire
    handle := user.handle
    name := user.name
    description := user.description
    image := user.image }

/-- The `if (code)` branch: CSRF check against the escort cookie, then
provider exchange, upsert, passport issue and redirect.  The escort
cookie has already been revoked, so every outcome starts with
`CookieOp.delete "escort"`. -/
def callbackSuccess (env : Env) (req : OAuthRequest) (c : String) : HResult :=
  match req.escort with
  | none =>
    { response := some (HttpResponse.content 401 "Unauthorized")
      cookies := [CookieOp.delete "escort"], db := env.db, exchanged := false }
  | some e =>
    if req.state = some e.state then
      if req.platform ∈ env.supported then
        match env.exchange req.platform c e.code_verifier with
        | some user =>
          let res := upsert env.db (mkRow env.freshID user)
          { response := some (HttpResponse.redirect (e.referrer.getD "/") 302)
            cookies := [CookieOp.delete "escort",
                        CookieOp.set "passport" (TokenPayload.passportP res.2) none]
            db := res.1, exchanged := true }
        | none =>
          { response := none
            cookies := [CookieOp.delete "escort"], db := env.db, exchanged := true }
      else
        { response := none
          cookies := [CookieOp.delete "escort"], db := env.db, exchanged := false }
    else
      { response := some (HttpResponse.content 401 "Unauthorized")
        cookies := [CookieOp.delete "escort"], db := env.db, exchanged := false }

/-- The `else if (error_status)` branch: `access_denied` redirects to
the stored referrer (or `/`), the two configuration errors give 500,
anything else gives 401. -/
def callbackError (env : Env) (req : OAuthRequest) (err : String) : HResult :=
  if err = "access_denied" then
    { response := some (HttpResponse.redirect
        ((req.escort.bind (fun e => e.referrer)).getD "/") 302)
      cookies := [CookieOp.delete "escort"], db := env.db, exchanged := false }
  else if err = "redirect_uri_mismatch" ∨ err = "application_suspended" then
    { response := some (HttpResponse.content 500 "Internal Server Error")
      cookies := [CookieOp.delete "escort"], db := env.db, exchanged := false }
  else
    { response := some (HttpResponse.content 401 "Unauthorized")
      cookies := [CookieOp.delete "escort"], db := env.db, exchanged := false }

/-- Time-to-live of the escort cookie: the handler passes
`"5 minutes"` to `Token.issue`; in seconds. -/
def escortTTLSeconds : Nat := 300

/-- The final `else` branch: issue a fresh escort cookie (state,
verifier, referrer with `/` fallback, 5-minute time-to-live) and
redirect to the provider authorization URL.  The strategy for an
unsupported platform rejects, but only after `Token.issue` has
already run, so the `set` operation is recorded in either case. -/
def initiateFlow (env : Env) (req : OAuthRequest) : HResult :=
  let payload : EscortPayload :=
    { state := env.freshState
      code_verifier := env.freshVerifier
      referrer := some (req.referer.getD "/") }
  let ops : List CookieOp :=
    [CookieOp.delete "escort",
     CookieOp.set "escort" (TokenPayload.escortP payload) (some escortTTLSeconds)]
  if req.platform ∈ env.supported then
    { response := some (HttpResponse.redirect
        (env.authURL req.platform env.freshState env.freshVerifier) 302)
      cookies := ops, db := env.db, exchanged := false }
  else
    { response := none, cookies := ops, db := env.db, exchanged := false }

/-- The exported `GET` route: dispatch on the truthiness of the `code`
and `error` query parameters, after the unconditional
`Token.check` / `Token.revoke` on the escort cookie. -/
def GET (env : Env) (req : OAuthRequest) : HResult :=
  if truthy req.code then
    callbackSuccess env req (req.code.getD "")
  else if truthy req.error_status then
    callbackError env req (req.error_status.getD "")
  else
    initiateFlow env req

/-- Whether `escort?.state !== state` is false, i.e. the CSRF check
passes: the escort cookie is present and the `state` query parameter
equals its stored `state`. -/
def stateMatches (escort : Option EscortPayload) (state : Option String) : Bool :=
  match escort with
  | none => false
  | some e => state == some e.state

/-- Modelled from the spec: the effect of one cookie operation on a
cookie jar (`Token.issue` overwrites any cookie of the same name,
`Token.revoke` deletes it immediately). -/
def applyOp (jar : String → Option (TokenPayload × Option Nat)) :
    CookieOp → String → Option (TokenPayload × Option Nat)
  | CookieOp.set n p t, m => if m = n then some (p, t) else jar m
  | CookieOp.delete n, m => if m = n then none else jar m

/-- The cookie jar after a list of operations has been applied in
order. -/
def applyOps (jar : String → Option (TokenPayload × Option Nat))
    (ops : List CookieOp) : String → Option (TokenPayload × Option Nat) :=
  ops.foldl applyOp jar

/-! Concrete fixtures used to evaluate the handler on explicit
inputs. -/

/-- A concrete account as returned by a provider exchange. -/
def acct0 : OAuthAccount :=
  { platform := "github", account := "id1", refresh := some "r2"
    access := some "a2", expire := some 2000, handle := some "h2"
    name := some "n2", description := some "d2", image := some "i2" }

/-- A concrete escort payload as issued at initiation. -/
def esc1 : EscortPayload :=
  { state := "st1", code_verifier := "ver1", referrer := some "/home" }

/-- A concrete environment: one supported platform, one exchangeable
code, an empty table. -/
def env0 : Env :=
  { supported := ["github"]
    exchange := fun p c v =>
      if p = "github" && c = "code1" && v = "ver1" then some acct0 else none
    authURL := fun p s v => "https://example.test/auth/" ++ p ++ "/" ++ s ++ "/" ++ v
    freshState := "st9", freshVerifier := "cv9", freshID := "ID9"
    db := [] }

/-- A pre-existing row sharing the `(platform, account)` key of
`acct0`. -/
def row0 : DrifterRow :=
  { ID := "OLD1", platform := "github", account := "id1"
    refresh := some "r1", access := some "a1", expire := some 1000
    handle := some "h1", name := some "n1", description := some "d1"
    image := some "i1" }

/-- The environment `env0` with `row0` already in the table. -/
def envU : Env :=
  { supported := ["github"]
    exchange := fun p c v =>
      if p = "github" && c = "code1" && v = "ver1" then some acct0 else none
    authURL := fun p s v => "https://example.test/auth/" ++ p ++ "/" ++ s ++ "/" ++ v
    freshState := "st9", freshVerifier := "cv9", freshID := "ID9"
    db := [row0] }

/-- A callback request whose `state` does not match the escort
cookie. -/
def req401 : OAuthRequest :=
  { platform := "github", code := some "code1", state := some "bad"
    error_status := none, referer := none, escort := some esc1 }

/-- A callback request that passes the CSRF check and exchanges
successfully. -/
def reqSuccess : OAuthRequest :=
  { platform := "github", code := some "code1", state := some "st1"
    error_status := none, referer := none, escort := some esc1 }

/-- A callback request where the user denied consent. -/
def reqDenied : OAuthRequest :=
  { platform := "github", code := none, state := none
    error_status := some "access_denied", referer := none, escort := some esc1 }

/-- An initiate request (no `code`, no `error`). -/
def reqInit : OAuthRequest :=
  { platform := "github", code := none, state := none
    error_status := none, referer := some "/from", escort := none }

/-- An initiate request for an unsupported platform. -/
def reqBadPlatform : OAuthRequest :=
  { platform := "myspace", code := none, state := none
    error_status := none, referer := some "/from", escort := none }

/-- A callback request carrying both a `code` and an `error`. -/
def reqBoth : OAuthRequest :=
  { platform := "github", code := some "code1", state := some "st1"
    error_status := some "access_denied", referer := none, escort := some esc1 }

/-- An incoming cookie jar still holding an escort cookie. -/
def jar0 : String → Option (TokenPayload × Option Nat) := fun n =>
  if n = "escort" then some (TokenPayload.escortP esc1, none) else none

/-- An empty incoming cookie jar. -/
def jarEmpty : String → Option (TokenPayload × Option Nat) := fun _ => none

end Anchor

namespace Rehype

/-- Properties of a hast element: the `src` and `alt` entries the
plugin inspects, plus the remaining property entries, copied
wholesale when the image is cloned by `h("img", {...properties})`. -/
structure HProps where
  src : Option String
  alt : Option String
  rest : List (String × String)

/-- A hast node: text, element or comment. -/
inductive HNode where
  | text (value : String)
  | element (tag : String) (props : HProps) (children : List HNode)
  | comment (value : String)

/-- Empty property set, as produced by `h` with no properties. -/
def noProps : HProps := { src := none, alt := none, rest := [] }

/-- A text node whose value trims to the empty string
(`child.value.trim() === ""`): equivalently, one all of whose
characters are whitespace.  The plugin filters these out of the
paragraph before inspecting it. -/
def isWhitespaceText : HNode → Bool
  | HNode.text v => v.toList.all Char.isWhitespace
  | _ => false

/-- JavaScript truthiness of an optional property value. -/
def truthyProp : Option String → Bool
  | none => false
  | some s => s != ""

/-- The visitor body of the plugin, applied to a direct child of the
root: a `p` element whose first non-whitespace child is an `img` with
truthy `src` and `alt` becomes a `figure` holding a childless copy of
the image and a `figcaption` starting with the alt text, followed by
a space and the remaining filtered children when any remain; every
other node is returned untouched. -/
def transformP (node : HNode) : HNode :=
  match node with
  | HNode.element tag props cs =>
    if tag == "p" then
      match cs.filter (fun c => !isWhitespaceText c) with
      | [] => HNode.element tag props cs
      | first :: rest =>
        match first with
        | HNode.element itag ip _ =>
          if itag == "img" && truthyProp ip.src && truthyProp ip.alt then
            HNode.element "figure" props
              [HNode.element "img" ip [],
               HNode.element "figcaption" noProps
                 (HNode.text (ip.alt.getD "") ::
                   (if rest.isEmpty then [] else HNode.text " " :: rest))]
          else HNode.element tag props cs
        | _ => HNode.element tag props cs
    else HNode.element tag props cs
  | n => n

/-- The plugin pass over a tree, given by the children of the root:
`visit` reaches every element, but the visitor returns early unless
the parent is the root itself, so the pass maps the transformation
over the root's children and leaves every deeper node alone. -/
def rehypeFigure (rootChildren : List HNode) : List HNode :=
  rootChildren.map transformP

/-- Follows the claim's words: a node is rewritten exactly when it is
a `p` element (as a direct child of the root) whose first
non-whitespace child is an `img` element with both `src` and `alt`
properties set to truthy values. -/
def figureQualifies (node : HNode) : Bool :=
  match node with
  | HNode.element tag _ cs =>
    tag == "p" &&
      (match cs.filter (fun c => !isWhitespaceText c) with
       | HNode.element itag ip _ :: _ =>
         itag == "img" && truthyProp ip.src && truthyProp ip.alt
       | _ => false)
  | _ => false

/-- Follows the claim's words: the rewritten form of a qualifying
paragraph — a `figure` keeping the paragraph's own properties,
containing a copy of the image and then a `figcaption` whose content
starts with the alt text and, when the paragraph had further
non-whitespace children, continues with a space and those remaining
children. -/
def figureSpec (node : HNode) : HNode :=
  match node with
  | HNode.element _ props cs =>
    match cs.filter (fun c => !isWhitespaceText c) with
    | HNode.element _ ip _ :: rest =>
      HNode.element "figure" props
        [HNode.element "img" ip [],
         HNode.element "figcaption" noProps
           (HNode.text (ip.alt.getD "") ::
             (if rest.isEmpty then [] else HNode.text " " :: rest))]
    | _ => node
  | _ => node

end Rehype

namespace Anchor

/-- Claim C1: for every callback request carrying a `code`, if the
`state` query parameter does not match the state stored in the escort
cookie — including when the escort token is absent, malformed or
expired, in which case `Token.check` yields no payload — the response
is 401 Unauthorized, the provider token exchange is not attempted,
and the database is not written. -/
theorem anchor_csrf_unauthorized (env : Env) (req : OAuthRequest)
    (hc : truthy req.code = true)
    (hm : stateMatches req.escort req.state = false) :
    (GET env req).response = some (HttpResponse.content 401 "Unauthorized") ∧
    (GET env req).db = env.db ∧ (GET env req).exchanged = false := by
  cases he : req.escort with
  | none => simp [GET, hc, callbackSuccess, he]
  | some e =>
    have hne : req.state ≠ some e.state := by
      intro h
      rw [he, h] at hm
      simp [stateMatches] at hm
    simp [GET, hc, callbackSuccess, he, hne]

/-- Witness for C1 at a concrete mismatching request. -/
theorem anchor_csrf_unauthorized_witness :
    truthy req401.code = true ∧
    stateMatches req401.escort req401.state = false ∧
    ((GET env0 req401).response = some (HttpResponse.content 401 "Unauthorized") ∧
     (GET env0 req401).db = env0.db ∧ (GET env0 req401).exchanged = false) :=
  ⟨by decide, by decide, anchor_csrf_unauthorized env0 req401 (by decide) (by decide)⟩

/-- Claim C2: after any callback request (one whose `code` or `error`
query parameter is truthy), the escort cookie is absent from the
resulting cookie jar, whatever branch ran and whatever its outcome:
the unconditional `Token.revoke` deletes it and no callback branch
re-issues it. -/
theorem anchor_callback_revokes_escort (env : Env) (req : OAuthRequest)
    (jar : String → Option (TokenPayload × Option Nat))
    (h : truthy req.code = true ∨ truthy req.error_status = true) :
    applyOps jar (GET env req).cookies "escort" = none := by
  by_cases hc : truthy req.code = true
  · rw [GET, hc]
    simp only [if_true]
    unfold callbackSuccess
    cases req.escort with
    | none => simp [applyOps, applyOp]
    | some e =>
      by_cases hs : req.state = some e.state
      · by_cases hp : req.platform ∈ env.supported
        · cases hx : env.exchange req.platform (req.code.getD "") e.code_verifier <;>
            simp [hx, hs, hp, applyOps, applyOp]
        · simp [hs, hp, applyOps, applyOp]
      · simp [hs, applyOps, applyOp]
  · have he : truthy req.error_status = true := h.resolve_left hc
    have hc' : truthy req.code = false := by
      cases hcv : truthy req.code with
      | true => exact absurd hcv hc
      | false => rfl
    rw [GET, hc', he]
    simp only [Bool.false_eq_true, if_false, if_true]
    unfold callbackError
    by_cases h1 : (req.error_status.getD "") = "access_denied"
    · simp [h1, applyOps, applyOp]
    · by_cases h2 : (req.error_status.getD "") = "redirect_uri_mismatch" ∨
          (req.error_status.getD "") = "application_suspended"
      · simp [h1, h2, applyOps, applyOp]
      · simp [h1, h2, applyOps, applyOp]

/-- Witness for C2 at a concrete successful callback over a jar that
still holds an escort cookie. -/
theorem anchor_callback_revokes_escort_witness :
    (truthy reqSuccess.code = true ∨ truthy reqSuccess.error_status = true) ∧
    applyOps jar0 (GET env0 reqSuccess).cookies "escort" = none :=
  ⟨Or.inl (by decide),
   anchor_callback_revokes_escort env0 reqSuccess jar0 (Or.inl (by decide))⟩

/-- Finding in a split list whose prefix fails the predicate yields
the head of the suffix when it satisfies it. -/
theorem find_split {α} (p : α → Bool) (pre : List α) (r : α) (post : List α)
    (hpre : ∀ x ∈ pre, p x = false) (hr : p r = true) :
    (pre ++ r :: post).find? p = some r := by
  induction pre with
  | nil => simp [List.find?_cons, hr]
  | cons a t ih =>
    have ha : p a = false := hpre a (by simp)
    simp only [List.cons_append, List.find?_cons, ha]
    exact ih (fun x hx => hpre x (by simp [hx]))

/-- Mapping the conditional merge over rows that all miss the conflict
key is the identity. -/
theorem map_merge_id (l : List DrifterRow) (row : DrifterRow)
    (h : ∀ x ∈ l, sameKey x row = false) :
    l.map (fun x => if sameKey x row then mergeRow x row else x) = l := by
  induction l with
  | nil => rfl
  | cons a t ih =>
    have ha : sameKey a row = false := h a (by simp)
    simp [ha, ih (fun x hx => h x (by simp [hx]))]

/-- When no existing row conflicts, the upsert appends exactly one new
row and returns its fresh id. -/
theorem upsert_insert (db : List DrifterRow) (row : DrifterRow)
    (h : ∀ r ∈ db, sameKey r row = false) :
    upsert db row = (db ++ [row], row.ID) := by
  unfold upsert
  rw [List.find?_eq_none.mpr (fun x hx => by simp [h x hx])]

/-- When exactly one existing row conflicts, the upsert rewrites that
row in place with the merged fields and returns its old id. -/
theorem upsert_update (pre : List DrifterRow) (r : DrifterRow)
    (post : List DrifterRow) (row : DrifterRow)
    (hr : sameKey r row = true)
    (hpre : ∀ x ∈ pre, sameKey x row = false)
    (hpost : ∀ x ∈ post, sameKey x row = false) :
    upsert (pre ++ r :: post) row = (pre ++ mergeRow r row :: post, r.ID) := by
  unfold upsert
  rw [find_split _ pre r post hpre hr]
  simp only [List.map_append, List.map_cons, hr, if_pos,
    map_merge_id pre row hpre, map_merge_id post row hpost]

/-- The row the upsert reports (by returned id) is in the final table
and carries the conflict key of the inserted values. -/
theorem upsert_mem_key (db : List DrifterRow) (row : DrifterRow) :
    ∃ x ∈ (upsert db row).1, x.ID = (upsert db row).2 ∧
      x.platform = row.platform ∧ x.account = row.account := by
  unfold upsert
  cases hf : db.find? (fun r => sameKey r row) with
  | none => exact ⟨row, by simp, rfl, rfl, rfl⟩
  | some r =>
    have hmem : r ∈ db := List.mem_of_find?_eq_some hf
    have hkey0 := List.find?_some hf
    have hkey : sameKey r row = true := by simpa using hkey0
    have hpa : r.platform = row.platform ∧ r.account = row.account := by
      simpa [sameKey] using hkey
    refine ⟨mergeRow r row, List.mem_map.mpr ⟨r, hmem, by simp [hkey]⟩, ?_, ?_, ?_⟩
    · rfl
    · simpa [mergeRow] using hpa.1
    · simpa [mergeRow] using hpa.2

/-- Claim C3: a successful callback upserts keyed on
`(platform, account)`.  A first-time pair appends exactly one new
record holding the provider values; an existing pair has exactly its
`access`, `expire`, `handle`, `name`, `description` and `image`
fields overwritten with the fresh provider values, while its `ID`,
`platform`, `account` and `refresh` and all other rows are unchanged
and no row is added. -/
theorem anchor_upsert_frame (env : Env) (req : OAuthRequest) (c : String)
    (e : EscortPayload) (user : OAuthAccount)
    (hc : req.code = some c) (hcne : c ≠ "")
    (he : req.escort = some e) (hs : req.state = some e.state)
    (hp : req.platform ∈ env.supported)
    (hx : env.exchange req.platform c e.code_verifier = some user) :
    ((∀ r ∈ env.db, sameKey r (mkRow env.freshID user) = false) →
        (GET env req).db = env.db ++ [mkRow env.freshID user]) ∧
    (∀ pre r post, env.db = pre ++ r :: post →
        sameKey r (mkRow env.freshID user) = true →
        (∀ x ∈ pre, sameKey x (mkRow env.freshID user) = false) →
        (∀ x ∈ post, sameKey x (mkRow env.freshID user) = false) →
        (GET env req).db =
          pre ++ { r with
                   access := user.access
                   expire := user.expire
                   handle := user.handle
                   name := user.name
                   description := user.description
                   image := user.image } :: post) := by
  have hGdb : (GET env req).db = (upsert env.db (mkRow env.freshID user)).1 := by
    simp [GET, truthy, callbackSuccess, he, hs, hp, hc, hcne, hx]
  constructor
  · intro hnew
    rw [hGdb, upsert_insert _ _ hnew]
  · intro pre r post hdb hr hpre hpost
    rw [hGdb, hdb, upsert_update pre r post _ hr hpre hpost]
    simp [mergeRow, mkRow]

/-- Witness for C3: the repeated-login case at concrete values, where
the pre-existing row keeps its id and refresh token and takes the new
profile fields. -/
theorem anchor_upsert_frame_witness :
    (GET envU reqSuccess).db =
      [] ++ { row0 with
              access := acct0.access
              expire := acct0.expire
              handle := acct0.handle
              name := acct0.name
              description := acct0.description
              image := acct0.image } :: [] :=
  (anchor_upsert_frame envU reqSuccess "code1" esc1 acct0 rfl (by decide) rfl rfl
      (by decide) (by decide)).2 [] row0 [] rfl (by decide)
      (fun x hx => absurd hx (List.not_mem_nil x))
      (fun x hx => absurd hx (List.not_mem_nil x))

/-- Claim C6: a callback that passes the CSRF check and whose exchange
and upsert succeed responds with a 302 redirect to the referrer
captured at initiation (`/` when none), and issues a `passport`
cookie whose `visa` is the local id of the upserted account record:
the final table holds a record with that id and the exchanged
`(platform, account)` key. -/
theorem anchor_success_passport (env : Env) (req : OAuthRequest) (c : String)
    (e : EscortPayload) (user : OAuthAccount)
    (hc : req.code = some c) (hcne : c ≠ "")
    (he : req.escort = some e) (hs : req.state = some e.state)
    (hp : req.platform ∈ env.supported)
    (hx : env.exchange req.platform c e.code_verifier = some user) :
    (GET env req).response =
      some (HttpResponse.redirect (e.referrer.getD "/") 302) ∧
    ∀ jar, ∃ visa,
      applyOps jar (GET env req).cookies "passport" =
        some (TokenPayload.passportP visa, none) ∧
      ∃ x ∈ (GET env req).db, x.ID = visa ∧
        x.platform = user.platform ∧ x.account = user.account := by
  have hGet : GET env req =
      { response := some (HttpResponse.redirect (e.referrer.getD "/") 302)
        cookies := [CookieOp.delete "escort",
          CookieOp.set "passport"
            (TokenPayload.passportP (upsert env.db (mkRow env.freshID user)).2) none]
        db := (upsert env.db (mkRow env.freshID user)).1
        exchanged := true } := by
    simp [GET, truthy, callbackSuccess, he, hs, hp, hc, hcne, hx]
  refine ⟨by rw [hGet], fun jar => ⟨(upsert env.db (mkRow env.freshID user)).2, ?_, ?_⟩⟩
  · rw [hGet]
    simp [applyOps, applyOp]
  · rw [hGet]
    simpa [mkRow] using upsert_mem_key env.db (mkRow env.freshID user)

/-- Witness for C6 at a concrete first-time login. -/
theorem anchor_success_passport_witness :
    (GET env0 reqSuccess).response =
      some (HttpResponse.redirect "/home" 302) ∧
    ∃ visa,
      applyOps jar0 (GET env0 reqSuccess).cookies "passport" =
        some (TokenPayload.passportP visa, none) ∧
      ∃ x ∈ (GET env0 reqSuccess).db, x.ID = visa ∧
        x.platform = acct0.platform ∧ x.account = acct0.account :=
  ⟨(anchor_success_passport env0 reqSuccess "code1" esc1 acct0 rfl (by decide)
      rfl rfl (by decide) (by decide)).1,
   (anchor_success_passport env0 reqSuccess "code1" esc1 acct0 rfl (by decide)
      rfl rfl (by decide) (by decide)).2 jar0⟩

/-- The error branch always leaves the database untouched, performs no
exchange, and only revokes the escort cookie. -/
theorem callbackError_shape (env : Env) (req : OAuthRequest) (err : String) :
    (callbackError env req err).cookies = [CookieOp.delete "escort"] ∧
    (callbackError env req err).db = env.db ∧
    (callbackError env req err).exchanged = false := by
  unfold callbackError
  by_cases h1 : err = "access_denied"
  · simp [h1]
  · by_cases h2 : err = "redirect_uri_mismatch" ∨ err = "application_suspended" <;>
      simp [h1, h2]

/-- On the code branch with an unsupported platform the handler either
answers 401 (CSRF mismatch) or throws at strategy selection; either
way it only revokes the escort cookie and touches nothing else. -/
theorem callbackSuccess_unsupported (env : Env) (req : OAuthRequest) (c : String)
    (hp : req.platform ∉ env.supported) :
    callbackSuccess env req c =
      { response := some (HttpResponse.content 401 "Unauthorized")
        cookies := [CookieOp.delete "escort"], db := env.db, exchanged := false } ∨
    callbackSuccess env req c =
      { response := none, cookies := [CookieOp.delete "escort"], db := env.db
        exchanged := false } := by
  unfold callbackSuccess
  cases req.escort with
  | none => left; rfl
  | some e =>
    by_cases hs : req.state = some e.state
    · right; simp [hs, hp]
    · left; simp [hs]

/-- Counterexample to claim C4 as stated: on the initiate path for an
unsupported platform the escort cookie is issued — with the fresh
state, verifier and referrer and the 5-minute time-to-live — before
the strategy selection rejects the request, so state is created before
the rejection. -/
theorem anchor_unsupported_counterexample :
    reqBadPlatform.platform ∉ env0.supported ∧
    truthy reqBadPlatform.code = false ∧
    truthy reqBadPlatform.error_status = false ∧
    (GET env0 reqBadPlatform).response = none ∧
    applyOps jarEmpty (GET env0 reqBadPlatform).cookies "escort" =
      some (TokenPayload.escortP
        { state := "st9", code_verifier := "cv9", referrer := some "/from" },
        some escortTTLSeconds) := by decide

/-- Claim C4 amended: a request for an unsupported platform never
reaches the provider exchange, never writes the database and never
issues a passport cookie; but on the initiate path the escort cookie
is issued before the platform is rejected, and the rejection surfaces
as a thrown error rather than a response. -/
theorem anchor_unsupported_amended (env : Env) (req : OAuthRequest)
    (jar : String → Option (TokenPayload × Option Nat))
    (hp : req.platform ∉ env.supported) :
    (GET env req).exchanged = false ∧
    (GET env req).db = env.db ∧
    applyOps jar (GET env req).cookies "passport" = jar "passport" ∧
    (truthy req.code = false → truthy req.error_status = false →
      (GET env req).response = none ∧
      applyOps jar (GET env req).cookies "escort" =
        some (TokenPayload.escortP
          { state := env.freshState
            code_verifier := env.freshVerifier
            referrer := some (req.referer.getD "/") },
          some escortTTLSeconds)) := by
  by_cases hc : truthy req.code = true
  · rw [GET, hc]
    simp only [if_true]
    rcases callbackSuccess_unsupported env req (req.code.getD "") hp with h | h <;>
      rw [h] <;>
      exact ⟨rfl, rfl, by simp [applyOps, applyOp],
        fun hf _ => by simp at hf⟩
  · have hc' : truthy req.code = false := by
      cases hcv : truthy req.code with
      | true => exact absurd hcv hc
      | false => rfl
    by_cases he : truthy req.error_status = true
    · rw [GET, hc', he]
      simp only [Bool.false_eq_true, if_false, if_true]
      obtain ⟨h1, h2, h3⟩ := callbackError_shape env req (req.error_status.getD "")
      exact ⟨h3, h2, by rw [h1]; simp [applyOps, applyOp],
        fun _ hf => by simp at hf⟩
    · have he' : truthy req.error_status = false := by
        cases hev : truthy req.error_status with
        | true => exact absurd hev he
        | false => rfl
      rw [GET, hc', he']
      simp only [Bool.false_eq_true, if_false]
      unfold initiateFlow
      simp [hp, applyOps, applyOp]

/-- Witness for the amended C4 at a concrete unsupported-platform
initiate request. -/
theorem anchor_unsupported_amended_witness :
    reqBadPlatform.platform ∉ env0.supported ∧
    truthy reqBadPlatform.code = false ∧
    truthy reqBadPlatform.error_status = false ∧
    (GET env0 reqBadPlatform).exchanged = false ∧
    (GET env0 reqBadPlatform).db = env0.db ∧
    applyOps jar0 (GET env0 reqBadPlatform).cookies "passport" = jar0 "passport" ∧
    (GET env0 reqBadPlatform).response = none ∧
    applyOps jar0 (GET env0 reqBadPlatform).cookies "escort" =
      some (TokenPayload.escortP
        { state := env0.freshState
          code_verifier := env0.freshVerifier
          referrer := some (reqBadPlatform.referer.getD "/") },
        some escortTTLSeconds) :=
  ⟨by decide, by decide, by decide,
   (anchor_unsupported_amended env0 reqBadPlatform jar0 (by decide)).1,
   (anchor_unsupported_amended env0 reqBadPlatform jar0 (by decide)).2.1,
   (anchor_unsupported_amended env0 reqBadPlatform jar0 (by decide)).2.2.1,
   ((anchor_unsupported_amended env0 reqBadPlatform jar0 (by decide)).2.2.2
      (by decide) (by decide)).1,
   ((anchor_unsupported_amended env0 reqBadPlatform jar0 (by decide)).2.2.2
      (by decide) (by decide)).2⟩

/-- Claim C5: on a callback carrying a non-empty `error` and no
(truthy) `code`, `access_denied` yields a 302 redirect to the referrer
stored in the escort token (or `/`), the two provider-configuration
errors yield 500, and any other non-empty error yields 401. -/
theorem anchor_error_branch (env : Env) (req : OAuthRequest) (err : String)
    (hc : truthy req.code = false) (he : req.error_status = some err)
    (hne : err ≠ "") :
    (err = "access_denied" →
      (GET env req).response = some (HttpResponse.redirect
        ((req.escort.bind (fun e => e.referrer)).getD "/") 302)) ∧
    ((err = "redirect_uri_mismatch" ∨ err = "application_suspended") →
      (GET env req).response =
        some (HttpResponse.content 500 "Internal Server Error")) ∧
    (err ≠ "access_denied" → err ≠ "redirect_uri_mismatch" →
      err ≠ "application_suspended" →
      (GET env req).response = some (HttpResponse.content 401 "Unauthorized")) := by
  have ht : truthy (some err) = true := by simp [truthy, hne]
  have hGet : GET env req = callbackError env req err := by
    simp [GET, hc, he, ht]
  refine ⟨?_, ?_, ?_⟩
  · intro h1
    rw [hGet]
    simp [callbackError, h1]
  · intro h2
    rcases h2 with h2 | h2 <;> subst h2 <;> rw [hGet] <;> simp [callbackError]
  · intro h1 h2 h3
    rw [hGet]
    simp [callbackError, h1, h2, h3]

/-- Witness for C5 at a concrete user-denied-consent callback. -/
theorem anchor_error_branch_witness :
    truthy reqDenied.code = false ∧
    reqDenied.error_status = some "access_denied" ∧
    "access_denied" ≠ "" ∧
    (GET env0 reqDenied).response = some (HttpResponse.redirect "/home" 302) :=
  ⟨by decide, rfl, by decide,
   (anchor_error_branch env0 reqDenied "access_denied" (by decide) rfl
      (by decide)).1 rfl⟩

/-- Claim C7: an initiate request (no truthy `code` or `error`) on a
supported platform issues an escort cookie holding the freshly
generated state and verifier and the referrer (with `/` fallback)
under a 5-minute time-to-live, and responds with a 302 redirect to
the provider authorization URL built from that state and verifier. -/
theorem anchor_initiate_issue (env : Env) (req : OAuthRequest)
    (jar : String → Option (TokenPayload × Option Nat))
    (hc : truthy req.code = false) (he : truthy req.error_status = false)
    (hp : req.platform ∈ env.supported) :
    (GET env req).response = some (HttpResponse.redirect
      (env.authURL req.platform env.freshState env.freshVerifier) 302) ∧
    applyOps jar (GET env req).cookies "escort" =
      some (TokenPayload.escortP
        { state := env.freshState
          code_verifier := env.freshVerifier
          referrer := some (req.referer.getD "/") },
        some escortTTLSeconds) ∧
    escortTTLSeconds = 5 * 60 := by
  have hGet : GET env req = initiateFlow env req := by
    simp [GET, hc, he]
  rw [hGet]
  unfold initiateFlow
  simp [hp, applyOps, applyOp, escortTTLSeconds]

/-- Witness for C7 at a concrete initiate request carrying a
referrer. -/
theorem anchor_initiate_issue_witness :
    truthy reqInit.code = false ∧
    truthy reqInit.error_status = false ∧
    reqInit.platform ∈ env0.supported ∧
    ((GET env0 reqInit).response = some (HttpResponse.redirect
        (env0.authURL reqInit.platform env0.freshState env0.freshVerifier) 302) ∧
      applyOps jar0 (GET env0 reqInit).cookies "escort" =
        some (TokenPayload.escortP
          { state := env0.freshState
            code_verifier := env0.freshVerifier
            referrer := some (reqInit.referer.getD "/") },
          some escortTTLSeconds) ∧
      escortTTLSeconds = 5 * 60) :=
  ⟨by decide, by decide, by decide,
   anchor_initiate_issue env0 reqInit jar0 (by decide) (by decide) (by decide)⟩

/-- The code branch reads only the escort cookie, the state parameter
and the platform of the request. -/
theorem callbackSuccess_congr (env : Env) (req req2 : OAuthRequest) (c : String)
    (h1 : req.escort = req2.escort) (h2 : req.state = req2.state)
    (h3 : req.platform = req2.platform) :
    callbackSuccess env req c = callbackSuccess env req2 c := by
  unfold callbackSuccess
  rw [h1, h2, h3]

/-- Claim C8: when both `code` and `error` are carried by the
callback, the `code` branch runs: the result is that of the
callback-success handler and is identical to the result for the same
request with the `error` parameter removed. -/
theorem anchor_code_precedence (env : Env) (req : OAuthRequest) (c : String)
    (hc : req.code = some c) (hcne : c ≠ "")
    (he : truthy req.error_status = true) :
    GET env req = callbackSuccess env req c ∧
    GET env req = GET env { req with error_status := none } := by
  have hts : truthy (some c) = true := by simp [truthy, hcne]
  constructor
  · simp [GET, hc, hts]
  · simp only [GET, hc, hts]
    simp only [if_true, Option.getD_some]
    exact callbackSuccess_congr env req _ c rfl rfl rfl

/-- Witness for C8 at a concrete request carrying both `code` and
`error=access_denied`: the error parameter is ignored. -/
theorem anchor_code_precedence_witness :
    reqBoth.code = some "code1" ∧
    "code1" ≠ "" ∧
    truthy reqBoth.error_status = true ∧
    (GET env0 reqBoth = callbackSuccess env0 reqBoth "code1" ∧
      GET env0 reqBoth = GET env0 { reqBoth with error_status := none }) :=
  ⟨rfl, by decide, by decide,
   anchor_code_precedence env0 reqBoth "code1" rfl (by decide) (by decide)⟩

/-- Claim C9: every initiate request records the revocation of any
pre-existing escort cookie strictly before the issue of the new one,
and over any incoming jar the final jar holds exactly the freshly
issued escort payload. -/
theorem anchor_initiate_revoke_first (env : Env) (req : OAuthRequest)
    (jar : String → Option (TokenPayload × Option Nat))
    (hc : truthy req.code = false) (he : truthy req.error_status = false) :
    (GET env req).cookies =
      [CookieOp.delete "escort",
       CookieOp.set "escort"
         (TokenPayload.escortP
           { state := env.freshState
             code_verifier := env.freshVerifier
             referrer := some (req.referer.getD "/") })
         (some escortTTLSeconds)] ∧
    applyOps jar (GET env req).cookies "escort" =
      some (TokenPayload.escortP
        { state := env.freshState
          code_verifier := env.freshVerifier
          referrer := some (req.referer.getD "/") },
        some escortTTLSeconds) := by
  have hGet : GET env req = initiateFlow env req := by
    simp [GET, hc, he]
  rw [hGet]
  unfold initiateFlow
  by_cases hp : req.platform ∈ env.supported <;> simp [hp, applyOps, applyOp]

/-- Witness for C9 at a concrete initiate request over a jar that
still holds an older escort cookie. -/
theorem anchor_initiate_revoke_first_witness :
    truthy reqInit.code = false ∧
    truthy reqInit.error_status = false ∧
    ((GET env0 reqInit).cookies =
      [CookieOp.delete "escort",
       CookieOp.set "escort"
         (TokenPayload.escortP
           { state := env0.freshState
             code_verifier := env0.freshVerifier
             referrer := some (reqInit.referer.getD "/") })
         (some escortTTLSeconds)] ∧
      applyOps jar0 (GET env0 reqInit).cookies "escort" =
        some (TokenPayload.escortP
          { state := env0.freshState
            code_verifier := env0.freshVerifier
            referrer := some (reqInit.referer.getD "/") },
          some escortTTLSeconds)) :=
  ⟨by decide, by decide,
   anchor_initiate_revoke_first env0 reqInit jar0 (by decide) (by decide)⟩

end Anchor

namespace Rehype

/-- The visitor body agrees pointwise with the claim-side description:
it rewrites a node exactly when it qualifies, and then to the
described figure. -/
theorem transformP_spec (n : HNode) :
    transformP n = if figureQualifies n = true then figureSpec n else n := by
  cases n with
  | text v => simp [transformP, figureQualifies]
  | comment v => simp [transformP, figureQualifies]
  | element tag props cs =>
    by_cases ht : (tag == "p") = true
    · cases hf : cs.filter (fun c => !isWhitespaceText c) with
      | nil => simp [transformP, figureQualifies, figureSpec, ht, hf]
      | cons first rest =>
        cases first with
        | text v => simp [transformP, figureQualifies, figureSpec, ht, hf]
        | comment v => simp [transformP, figureQualifies, figureSpec, ht, hf]
        | element itag ip ics =>
          by_cases hg : (itag == "img" && truthyProp ip.src && truthyProp ip.alt) = true
          · simp [transformP, figureQualifies, figureSpec, ht, hf, hg]
          · simp [transformP, figureQualifies, figureSpec, ht, hf, hg]
    · simp [transformP, figureQualifies, ht]

/-- Claim C10: the plugin pass preserves the number of root children,
and at every position the output is the described figure rewriting of
the input node when it qualifies (a root-level `p` whose first
non-whitespace child is an `img` with truthy `src` and `alt`), and
the unchanged input node otherwise; nodes beyond the root level are
untouched because unchanged nodes are returned whole. -/
theorem rehype_figure_characterization (t : List HNode) (i : Nat) :
    (rehypeFigure t).length = t.length ∧
    (rehypeFigure t)[i]? = t[i]?.map
      (fun n => if figureQualifies n = true then figureSpec n else n) := by
  constructor
  · simp [rehypeFigure]
  · simp only [rehypeFigure, List.getElem?_map]
    cases h : t[i]? with
    | none => rfl
    | some a => simp [transformP_spec a]

end Rehype
